import Mathlib

/-!
Shallow embedding of the pessimistic-lock / optimistic-version engine of the
diginode-fe repository (server actions `acquireLock`, `refreshLock`,
`releaseLock`, `getLockStatus`, `saveMap`, `createMap`, `deleteMap`,
`updateMapTitle`, and the client hook `useMapLock`).

The embedding models a single document row of the `mind_maps` table.  Fields
the lock/version engine never reads or writes (`id`, `ownerId`, `createdAt`)
are omitted; `content` is an opaque string (the engine round-trips it through
JSON without interpreting it).  Timestamps are integers (milliseconds, as in
JavaScript `Date.getTime()`).  Each server action takes the caller's
`userId`/`organizationId` (resolved from the session in the source), the
current time, and the document row, and returns the action's result together
with the row after the action (`NotFound` models `verifyMapAccess` returning
null for an organization mismatch).  The `names` parameter models the join to
the `users` table resolving `lockedByUserId` to a display name.
-/

namespace Diginode

/-- Lock timeout in milliseconds (60 seconds), from `LOCK_TIMEOUT_MS` in the
lock actions module. -/
def LOCK_TIMEOUT_MS : Int := 60 * 1000

/-- Heartbeat interval in milliseconds (30 seconds), from
`HEARTBEAT_INTERVAL_MS` in the `useMapLock` hook. -/
def HEARTBEAT_INTERVAL_MS : Int := 30 * 1000

/-- One row of the `mind_maps` table, restricted to the fields the
lock/version engine touches. -/
structure MindMap where
  organizationId : String
  title : String
  content : String
  version : Nat
  isLocked : Bool
  lockedByUserId : Option String
  lockHeartbeat : Option Int
  updatedAt : Int
  deriving DecidableEq, Repr

/-- Typed errors thrown by the actions (from `lib/errors`): `NotFoundError`,
`LockNotHeldError`, `VersionConflictError` (carrying the stored and the
supplied version), `ForbiddenError`. -/
inductive AppError where
  | notFound
  | lockNotHeld
  | versionConflict (currentVersion : Nat) (expectedVersion : Nat)
  | forbidden
  deriving DecidableEq, Repr

/-- JavaScript `x || y` on an optional string: `undefined`/`null` and the
empty string are falsy, so they fall through to the default. -/
def jsStrOr (s : Option String) (d : Option String) : Option String :=
  match s with
  | some n => if n = "" then d else some n
  | none => d

/-- Check if a lock heartbeat is stale (older than `LOCK_TIMEOUT_MS`); a null
heartbeat is stale.  Mirrors `isLockStale`. -/
def isLockStale (now : Int) (lockHeartbeat : Option Int) : Bool :=
  match lockHeartbeat with
  | none => true
  | some t => decide (now - t > LOCK_TIMEOUT_MS)

/-- Result of `acquireLock`: `ACQUIRED` (with `lockAcquiredAt` and
`wasStolen`) or `READ_ONLY` (with the holder's id and display name). -/
inductive AcquireLockResult where
  | acquired (lockAcquiredAt : Int) (wasStolen : Bool)
  | readOnly (lockedByUserId : Option String) (lockedByUserName : Option String)
  deriving DecidableEq, Repr

/-- Result of `refreshLock`: `OK` or `LOCK_LOST`, each carrying
`newHeartbeat` (the source puts `new Date()` in both). -/
inductive RefreshLockResult where
  | ok (newHeartbeat : Int)
  | lockLost (newHeartbeat : Int)
  deriving DecidableEq, Repr

/-- Attempt to acquire a lock on a mind map.  Mirrors `acquireLock`:
case 1 unlocked (or null holder) → acquire; case 2 locked by the caller →
refresh heartbeat; case 3 locked by another user and stale → steal;
case 4 locked by another user with valid heartbeat → `READ_ONLY`. -/
def acquireLock (userId organizationId : String) (now : Int)
    (names : String → Option String) (m : MindMap) :
    (Except AppError AcquireLockResult) × MindMap :=
  if m.organizationId ≠ organizationId then (.error .notFound, m)
  else if m.isLocked = false ∨ m.lockedByUserId = none then
    (.ok (.acquired now false),
     { m with isLocked := true, lockedByUserId := some userId,
              lockHeartbeat := some now })
  else if m.lockedByUserId = some userId then
    (.ok (.acquired now false), { m with lockHeartbeat := some now })
  else if isLockStale now m.lockHeartbeat then
    (.ok (.acquired now true),
     { m with lockedByUserId := some userId, lockHeartbeat := some now })
  else
    (.ok (.readOnly m.lockedByUserId (jsStrOr (m.lockedByUserId.bind names) none)), m)

/-- Refresh the lock heartbeat.  Mirrors `refreshLock`: if the map is not
locked or is held by someone else, return `LOCK_LOST` without mutating;
otherwise set the heartbeat to now. -/
def refreshLock (userId organizationId : String) (now : Int) (m : MindMap) :
    (Except AppError RefreshLockResult) × MindMap :=
  if m.organizationId ≠ organizationId then (.error .notFound, m)
  else if m.isLocked = false ∨ m.lockedByUserId ≠ some userId then
    (.ok (.lockLost now), m)
  else
    (.ok (.ok now), { m with lockHeartbeat := some now })

/-- Release a lock.  Mirrors `releaseLock`: a conditional `updateMany` whose
where-clause requires `lockedByUserId = userId`; `released` is whether a row
matched.  The boolean in the result is the `released` flag. -/
def releaseLock (userId organizationId : String) (m : MindMap) :
    (Except AppError Bool) × MindMap :=
  if m.organizationId ≠ organizationId then (.error .notFound, m)
  else if m.lockedByUserId = some userId then
    (.ok true,
     { m with isLocked := false, lockedByUserId := none, lockHeartbeat := none })
  else
    (.ok false, m)

/-- Result of `getLockStatus`. -/
structure GetLockStatusResult where
  isLocked : Bool
  lockedByUserId : Option String
  lockedByUserName : Option String
  isLockedByCurrentUser : Bool
  lockHeartbeat : Option Int
  isStale : Bool
  deriving DecidableEq, Repr

/-- Read-only projection of the lock fields plus the derived `isStale` flag.
Mirrors `getLockStatus`. -/
def getLockStatus (userId organizationId : String) (now : Int)
    (names : String → Option String) (m : MindMap) :
    Except AppError GetLockStatusResult :=
  if m.organizationId ≠ organizationId then .error .notFound
  else
    .ok { isLocked := m.isLocked
          lockedByUserId := m.lockedByUserId
          lockedByUserName := jsStrOr (m.lockedByUserId.bind names) none
          isLockedByCurrentUser := decide (m.lockedByUserId = some userId)
          lockHeartbeat := m.lockHeartbeat
          isStale := isLockStale now m.lockHeartbeat }

/-- Result of `saveMap`. -/
structure SaveMapResult where
  newVersion : Nat
  updatedAt : Int
  deriving DecidableEq, Repr

/-- The read-and-check phase of `saveMap`, evaluated against the row state
the action read: organization isolation, then lock ownership
(`!map.isLocked || map.lockedByUserId !== userId` → `LockNotHeldError`),
then optimistic concurrency (`map.version !== currentVersion` →
`VersionConflictError(map.version, currentVersion)`). -/
def saveMapRead (userId organizationId : String) (currentVersion : Nat)
    (m : MindMap) : Option AppError :=
  if m.organizationId ≠ organizationId then some .notFound
  else if m.isLocked = false ∨ m.lockedByUserId ≠ some userId then
    some .lockNotHeld
  else if m.version ≠ currentVersion then
    some (.versionConflict m.version currentVersion)
  else none

/-- The write phase of `saveMap`: `db.mindMap.update({ where: { id } })` with
`content`, `version: { increment: 1 }`, `updatedAt`.  The where-clause names
only the id — the write applies to whatever row state is current when it
executes, with no version condition — so it is a total function of the
current row. -/
def saveMapWrite (newContent : String) (now : Int) (m : MindMap) :
    SaveMapResult × MindMap :=
  let m2 := { m with content := newContent, version := m.version + 1,
                     updatedAt := now }
  ({ newVersion := m2.version, updatedAt := m2.updatedAt }, m2)

/-- Save a mind map with optimistic concurrency control, as a single
uninterrupted call: the checks of `saveMapRead` against the row, then the
unconditional write of `saveMapWrite`. -/
def saveMap (userId organizationId : String) (newContent : String)
    (currentVersion : Nat) (now : Int) (m : MindMap) :
    (Except AppError SaveMapResult) × MindMap :=
  match saveMapRead userId organizationId currentVersion m with
  | some e => (.error e, m)
  | none =>
    let r := saveMapWrite newContent now m
    (.ok r.1, r.2)

/-- Two concurrent `saveMap` calls on the same document, interleaved as
read-A, read-B, write-A, write-B: both calls perform their checks against
the same row state `m` (each read happens before either write), then each
call whose checks passed executes its unconditional write in order.  This is
a legal interleaving because the source's `findFirst` read and `update`
write are separate round trips with no store-side version condition on the
write. -/
def saveInterleaved (userA orgA userB orgB : String) (versionA versionB : Nat)
    (bodyA bodyB : String) (nowA nowB : Int) (m : MindMap) :
    (Except AppError SaveMapResult) × (Except AppError SaveMapResult) × MindMap :=
  match saveMapRead userA orgA versionA m, saveMapRead userB orgB versionB m with
  | some eA, some eB => (.error eA, .error eB, m)
  | some eA, none =>
    let rB := saveMapWrite bodyB nowB m
    (.error eA, .ok rB.1, rB.2)
  | none, some eB =>
    let rA := saveMapWrite bodyA nowA m
    (.ok rA.1, .error eB, rA.2)
  | none, none =>
    let rA := saveMapWrite bodyA nowA m
    let rB := saveMapWrite bodyB nowB rA.2
    (.ok rA.1, .ok rB.1, rB.2)

/-- Create a new mind map.  Mirrors `createMap`: `version: 1`,
`isLocked: false`; `lockedByUserId` and `lockHeartbeat` take their schema
defaults (null). -/
def createMap (organizationId title content : String) (now : Int) : MindMap :=
  { organizationId := organizationId, title := title, content := content,
    version := 1, isLocked := false, lockedByUserId := none,
    lockHeartbeat := none, updatedAt := now }

/-- Update a mind map's title.  Mirrors `updateMapTitle`: rejected with
`LockNotHeldError` only when the map is locked AND held by someone else. -/
def updateMapTitle (userId organizationId : String) (title : String)
    (m : MindMap) : (Except AppError String) × MindMap :=
  if m.organizationId ≠ organizationId then (.error .notFound, m)
  else if m.isLocked = true ∧ m.lockedByUserId ≠ some userId then
    (.error .lockNotHeld, m)
  else (.ok title, { m with title := title })

/-- Delete a mind map.  Mirrors `deleteMap`: rejected with `ForbiddenError`
only when the map is locked AND held by someone else; on success the row is
gone (`none`). -/
def deleteMap (userId organizationId : String) (m : MindMap) :
    (Except AppError Bool) × Option MindMap :=
  if m.organizationId ≠ organizationId then (.error .notFound, some m)
  else if m.isLocked = true ∧ m.lockedByUserId ≠ some userId then
    (.error .forbidden, some m)
  else (.ok true, none)

/-- The invariant relating the two lock-ownership fields of a row. -/
def lockInvariant (m : MindMap) : Prop :=
  m.isLocked = true ↔ m.lockedByUserId ≠ none

instance (m : MindMap) : Decidable (lockInvariant m) := by
  unfold lockInvariant; infer_instance

/-- Status of the client lock session (`MapLockState.status` in the
`useMapLock` hook). -/
inductive ClientLockStatus where
  | loading
  | acquired
  | readOnly
  | lockLost
  | error
  deriving DecidableEq, Repr

/-- Client lock-session state: the hook's `MapLockState` plus whether the
heartbeat interval timer is currently installed
(`heartbeatIntervalRef.current !== null`). -/
structure ClientState where
  status : ClientLockStatus
  canEdit : Bool
  wasStolen : Bool
  heartbeatTimerRunning : Bool
  deriving DecidableEq, Repr

/-- Outcome of one `refreshLock` round trip as seen by the hook's `refresh`
callback: the call threw or returned `success: false` (transient store
error), or it succeeded with status `OK`, or with status `LOCK_LOST`. -/
inductive RefreshCallOutcome where
  | callFailed
  | resultOk (newHeartbeat : Int)
  | resultLockLost
  deriving DecidableEq, Repr

/-- One execution of the hook's `refresh` callback: a no-op unless the
session is in the acquired state; a failed call is logged and changes
nothing (the timer keeps running, so the next tick retries); `LOCK_LOST`
moves the session to lock-lost, clears the heartbeat interval, and fires the
`onLockLost` callback (the returned boolean). -/
def clientRefresh (s : ClientState) (o : RefreshCallOutcome) :
    ClientState × Bool :=
  if s.status ≠ .acquired then (s, false)
  else
    match o with
    | .callFailed => (s, false)
    | .resultOk _ => (s, false)
    | .resultLockLost =>
      ({ status := .lockLost, canEdit := false, wasStolen := false,
         heartbeatTimerRunning := false }, true)

/-- A concrete document row: organization org1, version 1, locked by alice
with a live heartbeat at time 1000. -/
def doc0 : MindMap :=
  { organizationId := "org1", title := "t", content := "body0",
    version := 1, isLocked := true, lockedByUserId := some "alice",
    lockHeartbeat := some 1000, updatedAt := 0 }

/-- A concrete name-resolution function for the examples. -/
def exampleNames : String → Option String := fun u =>
  if u = "alice" then some "Alice"
  else if u = "bob" then some "Bob"
  else none

/-- C1: the claim predicts that of two concurrent save calls with the same
matching `expectedVersion`, exactly one returns Ok and the other
VersionConflict, the write being a store-rejected conditional update.  The
code's write is conditioned only on the row id: in the interleaving
read-read-write-write on `doc0` (version 1, locked by alice), both of
alice's concurrent saves at expectedVersion 1 return Ok and the version
reaches 3. -/
theorem save_race_both_succeed :
    saveInterleaved "alice" "org1" "alice" "org1" 1 1 "bodyA" "bodyB" 100 200 doc0 =
      (.ok { newVersion := 2, updatedAt := 100 },
       .ok { newVersion := 3, updatedAt := 200 },
       { doc0 with content := "bodyB", version := 3, updatedAt := 200 }) := by
  rfl

/-- C2: with the lock held and a matching expected version, save returns Ok
with newVersion = stored version + 1, persists the new body, and updates
updatedAt; with the lock held and a mismatched expected version, save
returns VersionConflict carrying the stored version as actual and the
supplied value as expected, and leaves the row (version, body, lock fields)
unchanged. -/
theorem saveMap_ok_and_conflict (uid org body : String) (ev : Nat) (now : Int)
    (m : MindMap)
    (horg : m.organizationId = org)
    (hlock : m.isLocked = true)
    (hheld : m.lockedByUserId = some uid) :
    (ev = m.version →
      saveMap uid org body ev now m =
        (.ok { newVersion := m.version + 1, updatedAt := now },
         { m with content := body, version := m.version + 1, updatedAt := now }))
    ∧ (ev ≠ m.version →
      saveMap uid org body ev now m =
        (.error (.versionConflict m.version ev), m)) := by
  constructor
  · intro hv
    simp [saveMap, saveMapRead, saveMapWrite, horg, hlock, hheld, hv]
  · intro hv
    have hv2 : ¬ m.version = ev := fun h => hv h.symm
    simp [saveMap, saveMapRead, horg, hlock, hheld, hv2]

/-- Witness for C2 at concrete inputs: both the matching-version branch and
the mismatched-version branch on `doc0`. -/
theorem saveMap_ok_and_conflict_witness :
    saveMap "alice" "org1" "b1" 1 50 doc0 =
      (.ok { newVersion := 2, updatedAt := 50 },
       { doc0 with content := "b1", version := 2, updatedAt := 50 })
    ∧ saveMap "alice" "org1" "b1" 7 50 doc0 =
      (.error (.versionConflict 1 7), doc0) :=
  ⟨(saveMap_ok_and_conflict "alice" "org1" "b1" 1 50 doc0 rfl rfl rfl).1 rfl,
   (saveMap_ok_and_conflict "alice" "org1" "b1" 7 50 doc0 rfl rfl rfl).2 (by decide)⟩

/-- C3: a save by a principal who does not hold the lock (the document is
unlocked, or locked by someone else) returns LockNotHeld and mutates
nothing, for every supplied expectedVersion — matching or not — because the
lock-ownership check runs before the version check. -/
theorem saveMap_lockNotHeld (uid org body : String) (ev : Nat) (now : Int)
    (m : MindMap)
    (horg : m.organizationId = org)
    (hnot : m.isLocked = false ∨ m.lockedByUserId ≠ some uid) :
    saveMap uid org body ev now m = (.error .lockNotHeld, m) := by
  rcases hnot with h | h
  · simp [saveMap, saveMapRead, horg, h]
  · simp [saveMap, saveMapRead, horg, h]

/-- Witness for C3: bob does not hold alice's lock on `doc0`; even with a
matching expectedVersion of 1 the save fails with LockNotHeld, and on an
unlocked document with a mismatched expectedVersion the error is still
LockNotHeld, not VersionConflict. -/
theorem saveMap_lockNotHeld_witness :
    saveMap "bob" "org1" "b1" 1 50 doc0 = (.error .lockNotHeld, doc0)
    ∧ saveMap "bob" "org1" "b1" 9 50 (createMap "org1" "t" "c" 0) =
      (.error .lockNotHeld, createMap "org1" "t" "c" 0) :=
  ⟨saveMap_lockNotHeld "bob" "org1" "b1" 1 50 doc0 rfl (Or.inr (by decide)),
   saveMap_lockNotHeld "bob" "org1" "b1" 9 50 (createMap "org1" "t" "c" 0) rfl
     (Or.inl rfl)⟩

/-- C4: when a lock held by principal a has a heartbeat older than
`LOCK_TIMEOUT_MS` (60 seconds), an acquire by a different principal b steals
it — returning Acquired with wasStolen = true and setting the holder to b
with heartbeat = now — and the next refresh by a against the resulting row
returns LOCK_LOST and mutates nothing. -/
theorem acquire_steal_then_refresh_lost (a b org : String) (t now now2 : Int)
    (names : String → Option String) (m : MindMap)
    (horg : m.organizationId = org)
    (hlock : m.isLocked = true)
    (hholder : m.lockedByUserId = some a)
    (hhb : m.lockHeartbeat = some t)
    (hstale : now - t > LOCK_TIMEOUT_MS)
    (hne : b ≠ a) :
    acquireLock b org now names m =
      (.ok (.acquired now true),
       { m with lockedByUserId := some b, lockHeartbeat := some now })
    ∧ refreshLock a org now2
        { m with lockedByUserId := some b, lockHeartbeat := some now } =
      (.ok (.lockLost now2),
       { m with lockedByUserId := some b, lockHeartbeat := some now }) := by
  have hab : ¬ a = b := fun h => hne h.symm
  constructor
  · simp [acquireLock, isLockStale, horg, hlock, hholder, hhb, hab, hstale]
  · simp [refreshLock, horg, hlock, hne]

/-- Witness for C4: bob steals alice's lock on `doc0` 61 seconds after her
last heartbeat, and alice's subsequent refresh reports LOCK_LOST. -/
theorem acquire_steal_then_refresh_lost_witness :
    acquireLock "bob" "org1" 62001 exampleNames doc0 =
      (.ok (.acquired 62001 true),
       { doc0 with lockedByUserId := some "bob", lockHeartbeat := some 62001 })
    ∧ refreshLock "alice" "org1" 70000
        { doc0 with lockedByUserId := some "bob", lockHeartbeat := some 62001 } =
      (.ok (.lockLost 70000),
       { doc0 with lockedByUserId := some "bob", lockHeartbeat := some 62001 }) :=
  acquire_steal_then_refresh_lost "alice" "bob" "org1" 1000 62001 70000
    exampleNames doc0 rfl rfl rfl rfl (by decide) (by decide)

/-- C5: when a lock held by principal a has a heartbeat at most
`LOCK_TIMEOUT_MS` (60 seconds) old, an acquire by any different principal b
returns READ_ONLY carrying a's id and display name, and leaves every field
of the row unchanged. -/
theorem acquire_fresh_readonly (a b org nm : String) (t now : Int)
    (names : String → Option String) (m : MindMap)
    (horg : m.organizationId = org)
    (hlock : m.isLocked = true)
    (hholder : m.lockedByUserId = some a)
    (hhb : m.lockHeartbeat = some t)
    (hfresh : now - t ≤ LOCK_TIMEOUT_MS)
    (hne : b ≠ a)
    (hname : names a = some nm)
    (hnm : nm ≠ "") :
    acquireLock b org now names m = (.ok (.readOnly (some a) (some nm)), m) := by
  have hab : ¬ a = b := fun h => hne h.symm
  have hnotstale : ¬ now - t > LOCK_TIMEOUT_MS := not_lt.mpr hfresh
  simp [acquireLock, isLockStale, jsStrOr, horg, hlock, hholder, hhb, hab,
    hnotstale, hname, hnm]

/-- Witness for C5: bob's acquire 60 seconds after alice's heartbeat on
`doc0` returns READ_ONLY with alice's id and name and does not change the
row. -/
theorem acquire_fresh_readonly_witness :
    acquireLock "bob" "org1" 61000 exampleNames doc0 =
      (.ok (.readOnly (some "alice") (some "Alice")), doc0) :=
  acquire_fresh_readonly "alice" "bob" "org1" "Alice" 1000 61000 exampleNames
    doc0 rfl rfl rfl rfl (by decide) (by decide) (by decide) (by decide)

/-- C6: release by a principal who is not the current holder (including on
an unlocked document) returns released = false and mutates nothing; release
by the holder clears isLocked, lockedByUserId and lockHeartbeat and returns
released = true; and a second release by the same principal afterwards
returns released = false without error and without mutation. -/
theorem releaseLock_cases (uid org : String) (m : MindMap)
    (horg : m.organizationId = org) :
    (m.lockedByUserId ≠ some uid → releaseLock uid org m = (.ok false, m))
    ∧ (m.lockedByUserId = some uid →
      releaseLock uid org m =
        (.ok true,
         { m with isLocked := false, lockedByUserId := none,
                  lockHeartbeat := none })
      ∧ releaseLock uid org
          { m with isLocked := false, lockedByUserId := none,
                   lockHeartbeat := none } =
        (.ok false,
         { m with isLocked := false, lockedByUserId := none,
                  lockHeartbeat := none })) := by
  constructor
  · intro h
    simp [releaseLock, horg, h]
  · intro h
    constructor
    · simp [releaseLock, horg, h]
    · simp [releaseLock, horg]

/-- Witness for C6: bob's release of alice's lock on `doc0` is a no-op
returning false; alice's release clears the lock fields and returns true;
alice's second release returns false and changes nothing. -/
theorem releaseLock_cases_witness :
    releaseLock "bob" "org1" doc0 = (.ok false, doc0)
    ∧ releaseLock "alice" "org1" doc0 =
      (.ok true,
       { doc0 with isLocked := false, lockedByUserId := none,
                   lockHeartbeat := none })
    ∧ releaseLock "alice" "org1"
        { doc0 with isLocked := false, lockedByUserId := none,
                    lockHeartbeat := none } =
      (.ok false,
       { doc0 with isLocked := false, lockedByUserId := none,
                   lockHeartbeat := none }) :=
  ⟨(releaseLock_cases "bob" "org1" doc0 rfl).1 (by decide),
   ((releaseLock_cases "alice" "org1" doc0 rfl).2 rfl).1,
   ((releaseLock_cases "alice" "org1" doc0 rfl).2 rfl).2⟩

/-- C7: isLocked = true iff lockedByUserId is non-null holds for a freshly
created document (unlocked, version 1) and is preserved by the row written
by every operation: acquire (all four branches, the steal included),
refresh, release, and save. -/
theorem lockInvariant_preserved (uid org title body c : String) (ev : Nat)
    (now : Int) (names : String → Option String) (m : MindMap)
    (hinv : lockInvariant m) :
    lockInvariant (createMap org title c now)
    ∧ lockInvariant (acquireLock uid org now names m).2
    ∧ lockInvariant (refreshLock uid org now m).2
    ∧ lockInvariant (releaseLock uid org m).2
    ∧ lockInvariant (saveMap uid org body ev now m).2 := by
  refine ⟨by simp [createMap, lockInvariant], ?_, ?_, ?_, ?_⟩
  · unfold acquireLock
    split
    · exact hinv
    · split
      · simp [lockInvariant]
      · split
        · simpa [lockInvariant] using hinv
        · split
          · rename_i hne hcase1 hsame hstale
            have h1 : m.isLocked = true := by
              have h := (not_or.mp hcase1).1
              simpa using h
            simp [lockInvariant, h1]
          · exact hinv
  · unfold refreshLock
    split
    · exact hinv
    · split
      · exact hinv
      · simpa [lockInvariant] using hinv
  · unfold releaseLock
    split
    · exact hinv
    · split
      · simp [lockInvariant]
      · exact hinv
  · unfold saveMap
    split
    · exact hinv
    · simpa [saveMapWrite, lockInvariant] using hinv

/-- Witness for C7 at a concrete locked row satisfying the invariant. -/
theorem lockInvariant_preserved_witness :
    lockInvariant (createMap "org1" "t" "c" 0)
    ∧ lockInvariant (acquireLock "bob" "org1" 5000 exampleNames doc0).2
    ∧ lockInvariant (refreshLock "bob" "org1" 5000 doc0).2
    ∧ lockInvariant (releaseLock "bob" "org1" doc0).2
    ∧ lockInvariant (saveMap "bob" "org1" "b" 1 5000 doc0).2 :=
  lockInvariant_preserved "bob" "org1" "t" "b" "c" 1 5000 exampleNames doc0
    (by decide)

/-- C8 counterexample: the claim predicts that a rename by a caller who does
not hold the lock is rejected with LockNotHeld with the title unchanged,
with no unlocked-document allowance.  On a freshly created (unlocked)
document, bob holds no lock, yet the rename succeeds and changes the title:
`updateMapTitle` only rejects when the map is locked by someone else, the
same allowance `deleteMap` has. -/
theorem updateMapTitle_unlocked_succeeds :
    updateMapTitle "bob" "org1" "renamed" (createMap "org1" "t" "c" 0) =
      (.ok "renamed", { createMap "org1" "t" "c" 0 with title := "renamed" }) := by
  rfl

/-- C8 amended: a rename is rejected with LockNotHeld and leaves the title
unchanged exactly when the document is locked by a principal other than the
caller; when the document is unlocked or locked by the caller, the rename
succeeds — the same allowance the delete operation has, not save's stricter
must-hold-lock precondition. -/
theorem updateMapTitle_lock_check (uid org title : String) (m : MindMap)
    (horg : m.organizationId = org) :
    (m.isLocked = true ∧ m.lockedByUserId ≠ some uid →
      updateMapTitle uid org title m = (.error .lockNotHeld, m))
    ∧ (m.isLocked = false ∨ m.lockedByUserId = some uid →
      updateMapTitle uid org title m = (.ok title, { m with title := title }))
    ∧ (m.isLocked = true ∧ m.lockedByUserId ≠ some uid →
      deleteMap uid org m = (.error .forbidden, some m)) := by
  refine ⟨fun h => ?_, fun h => ?_, fun h => ?_⟩
  · simp [updateMapTitle, horg, h.1, h.2]
  · rcases h with h | h
    · simp [updateMapTitle, horg, h]
    · simp [updateMapTitle, horg, h]
  · simp [deleteMap, horg, h.1, h.2]

/-- Witness for the amended C8: bob's rename of `doc0` (locked by alice) is
rejected and changes nothing, bob's delete of `doc0` is likewise rejected,
alice's rename of `doc0` succeeds, and bob's rename of an unlocked document
succeeds. -/
theorem updateMapTitle_lock_check_witness :
    updateMapTitle "bob" "org1" "x" doc0 = (.error .lockNotHeld, doc0)
    ∧ updateMapTitle "alice" "org1" "x" doc0 =
      (.ok "x", { doc0 with title := "x" })
    ∧ updateMapTitle "bob" "org1" "x" (createMap "org1" "t" "c" 0) =
      (.ok "x", { createMap "org1" "t" "c" 0 with title := "x" })
    ∧ deleteMap "bob" "org1" doc0 = (.error .forbidden, some doc0) :=
  ⟨(updateMapTitle_lock_check "bob" "org1" "x" doc0 rfl).1 ⟨rfl, by decide⟩,
   (updateMapTitle_lock_check "alice" "org1" "x" doc0 rfl).2.1 (Or.inr rfl),
   (updateMapTitle_lock_check "bob" "org1" "x" (createMap "org1" "t" "c" 0)
      rfl).2.1 (Or.inl rfl),
   (updateMapTitle_lock_check "bob" "org1" "x" doc0 rfl).2.2 ⟨rfl, by decide⟩⟩

/-- C9: in the client lock session's refresh callback, a failed call
(transient store error, whether thrown or returned as an unsuccessful
result) leaves the session exactly as it was — still acquired, heartbeat
timer still running, no lock-lost notification — so the next tick retries;
an OK result likewise changes nothing; only an explicit LOCK_LOST result
moves the session to the lock-lost state, stops the heartbeat timer, and
fires the lock-lost notification. -/
theorem clientRefresh_transient_vs_lockLost (s : ClientState) (hb : Int)
    (hs : s.status = .acquired) :
    clientRefresh s .callFailed = (s, false)
    ∧ clientRefresh s (.resultOk hb) = (s, false)
    ∧ clientRefresh s .resultLockLost =
      ({ status := .lockLost, canEdit := false, wasStolen := false,
         heartbeatTimerRunning := false }, true) := by
  refine ⟨?_, ?_, ?_⟩ <;> simp [clientRefresh, hs]

/-- Witness for C9 at a concrete acquired session with the heartbeat timer
running. -/
theorem clientRefresh_transient_vs_lockLost_witness :
    clientRefresh
      { status := .acquired, canEdit := true, wasStolen := false,
        heartbeatTimerRunning := true } .callFailed =
      ({ status := .acquired, canEdit := true, wasStolen := false,
         heartbeatTimerRunning := true }, false)
    ∧ clientRefresh
      { status := .acquired, canEdit := true, wasStolen := false,
        heartbeatTimerRunning := true } (.resultOk 30000) =
      ({ status := .acquired, canEdit := true, wasStolen := false,
         heartbeatTimerRunning := true }, false)
    ∧ clientRefresh
      { status := .acquired, canEdit := true, wasStolen := false,
        heartbeatTimerRunning := true } .resultLockLost =
      ({ status := .lockLost, canEdit := false, wasStolen := false,
         heartbeatTimerRunning := false }, true) :=
  clientRefresh_transient_vs_lockLost
    { status := .acquired, canEdit := true, wasStolen := false,
      heartbeatTimerRunning := true } 30000 rfl

/-- C10: a lock whose heartbeat is null is treated as stale: on a row that
is locked by a with a null heartbeat, `isLockStale` holds at every time, an
acquire by any other principal b steals the lock (Acquired with
wasStolen = true, not READ_ONLY), and the status query reports
isStale = true. -/
theorem null_heartbeat_stale (a b org : String) (now : Int)
    (names : String → Option String) (m : MindMap)
    (horg : m.organizationId = org)
    (hlock : m.isLocked = true)
    (hholder : m.lockedByUserId = some a)
    (hhb : m.lockHeartbeat = none)
    (hne : b ≠ a) :
    isLockStale now m.lockHeartbeat = true
    ∧ acquireLock b org now names m =
      (.ok (.acquired now true),
       { m with lockedByUserId := some b, lockHeartbeat := some now })
    ∧ (getLockStatus b org now names m).map (fun r => r.isStale) =
      Except.ok true := by
  have hab : ¬ a = b := fun h => hne h.symm
  refine ⟨by simp [isLockStale, hhb], ?_, ?_⟩
  · simp [acquireLock, isLockStale, horg, hlock, hholder, hhb, hab]
  · simp [getLockStatus, isLockStale, Except.map, horg, hhb]

/-- Witness for C10: `doc0` with its heartbeat set to null is stolen by bob
at any time, and the status query reports the lock stale. -/
theorem null_heartbeat_stale_witness :
    isLockStale 0 ({ doc0 with lockHeartbeat := none } : MindMap).lockHeartbeat = true
    ∧ acquireLock "bob" "org1" 0 exampleNames { doc0 with lockHeartbeat := none } =
      (.ok (.acquired 0 true),
       { doc0 with lockedByUserId := some "bob", lockHeartbeat := some 0 })
    ∧ (getLockStatus "bob" "org1" 0 exampleNames
        { doc0 with lockHeartbeat := none }).map (fun r => r.isStale) =
      Except.ok true :=
  null_heartbeat_stale "alice" "bob" "org1" 0 exampleNames
    { doc0 with lockHeartbeat := none } rfl rfl rfl rfl (by decide)

end Diginode
